import Mathlib

/-!
Shallow embedding of the `ControlSuiteEnvironment` wrapper defined in
`tutorials/2. Adding an Environment.ipynb`: a Coach environment wrapper for
the DeepMind Control Suite.  Numeric array values (numpy ndarrays) are
modelled by their shape together with their row-major flattened data; the
wrapped dm_control environment is modelled by its observation spec, action
spec, and `step`/`reset`/`physics.render` behaviours.  Python exceptions are
modelled explicitly: a method that can raise returns the object state after
the call paired with an optional exception.
-/

namespace ControlSuite

/-- A numpy ndarray of integers, modelled by its shape and its row-major
flattened data.  A 0-dimensional ndarray (a numpy scalar) has shape `[]`. -/
structure NDArray where
  shape : List Nat
  data : List Int
deriving Repr, DecidableEq

/-- `np.array([v])`: wraps a value in a length-1 leading axis, so the result
has one more dimension than `v`. -/
def npArrayOf (v : NDArray) : NDArray :=
  ⟨1 :: v.shape, v.data⟩

/-- `np.array([])`: the empty 1-D float array that `_update_state` starts its
measurements accumulator from. -/
def npEmpty : NDArray :=
  ⟨[0], []⟩

/-- `np.concatenate((a, b))` with the default `axis=0`: defined only when both
arrays have at least one dimension, the same number of dimensions, and equal
trailing dimensions; otherwise numpy raises `ValueError`, modelled by
`none`. -/
def npConcatenate (a b : NDArray) : Option NDArray :=
  match a.shape, b.shape with
  | a0 :: arest, b0 :: brest =>
      if arest = brest then some ⟨(a0 + b0) :: arest, a.data ++ b.data⟩
      else none
  | _, _ => none

/-- A 1-D ndarray holding the given data. -/
def vec (xs : List Int) : NDArray :=
  ⟨[xs.length], xs⟩

/-- Dictionary lookup (`d[k]` returning `None` on a missing key is modelled by
the caller pattern-matching; a raising `d[k]` maps `none` to `KeyError`). -/
def dictGet (k : String) : List (String × NDArray) → Option NDArray
  | [] => none
  | (k', v) :: rest => if k' = k then some v else dictGet k rest

/-- Lookup in a spec dictionary mapping names to shapes. -/
def specGet (k : String) : List (String × List Nat) → Option (List Nat)
  | [] => none
  | (k', v) :: rest => if k' = k then some v else specGet k rest

/-- A dm_env `TimeStep`, as returned by `env.step` / `env.reset` and stored in
`self.last_result`.  `observation` is the (ordered) observation dictionary,
`reward` is `None` on the first step of an episode, and `isLast` models the
`last()` method. -/
structure TimeStep where
  observation : List (String × NDArray)
  reward : Option Int
  isLast : Bool

/-- The action spec of the wrapped dm_control environment
(`env.action_spec()`): a `BoundedArraySpec` with a shape and per-component
minimum and maximum bounds. -/
structure ActionSpec where
  shape : List Nat
  minimum : List Int
  maximum : List Int

/-- Possible Python exceptions in the modelled code: a missing dictionary
key, a shape mismatch inside `np.concatenate`, and arbitrary failures coming
out of the wrapped simulator. -/
inductive PyError where
  | keyError
  | valueError
  | simError (msg : String)
deriving Repr, DecidableEq

/-- The wrapped simulator after `suite.load` and `pixels.Wrapper(...,
pixels_only=False)`: its observation spec (an ordered dictionary from
sub-observation names to shapes), its action spec, and the behaviours of
`step`, `reset` and `physics.render` (by camera id), each of which may raise. -/
structure DMEnv where
  observation_spec : List (String × List Nat)
  action_spec : ActionSpec
  step : NDArray → Except PyError TimeStep
  reset : Except PyError TimeStep
  physics_render : Nat → NDArray

/-- `ImageObservationSpace(shape=..., high=...)` from `rl_coach.spaces`. -/
structure ImageObservationSpace where
  shape : List Nat
  high : Int
deriving Repr, DecidableEq

/-- `VectorObservationSpace(shape=..., measurements_names=...)` from
`rl_coach.spaces`. -/
structure VectorObservationSpace where
  shape : Nat
  measurements_names : List String
deriving Repr, DecidableEq

/-- `BoxActionSpace(shape=..., low=..., high=...)` from `rl_coach.spaces`:
a bounded continuous action space with per-component bounds. -/
structure BoxActionSpace where
  shape : Nat
  low : List Int
  high : List Int
deriving Repr, DecidableEq

/-- The run-time type of `self.action_space`: the `__init__` shown always
installs a `BoxActionSpace`, but `_take_action` tests
`type(self.action_space) == BoxActionSpace`, so the model keeps the
alternative. -/
inductive ActionSpaceT where
  | box (b : BoxActionSpace)
  | other

/-- The mutable attributes of a `ControlSuiteEnvironment` instance that the
shown methods read or write. -/
structure EnvState where
  env : DMEnv
  action_space : ActionSpaceT
  state_space_pixels : ImageObservationSpace
  state_space_measurements : VectorObservationSpace
  last_result : TimeStep
  state : List (String × NDArray)
  reward : Int
  done : Bool

/-! ### `__init__`: the state-space and action-space construction

`__init__` also calls `suite.load`, `pixels.Wrapper`, the seeding functions
and `reset_internal_state(True)`; those are external framework / simulator
calls, so the model takes the already-wrapped simulator `env` as given and
covers the code shown in the notebook cell: the construction of
`self.state_space['pixels']`, `self.state_space['measurements']` and
`self.action_space`. -/

/-- The `for observation_space_name, observation_space in
self.env.observation_spec().items()` loop of `__init__`: folds over the spec
accumulating `(measurements_space_size, measurements_names)`, adding 1 and
the bare name for a 0-D entry and `shape[0]` and the indexed names
`"{}_{}".format(name, i)` for a 1-D entry; entries of higher dimension are
skipped. -/
def measurementsLoop (spec : List (String × List Nat)) (acc : Nat × List String) :
    Nat × List String :=
  match spec with
  | [] => acc
  | (name, shape) :: rest =>
      match shape with
      | [] => measurementsLoop rest (acc.1 + 1, acc.2 ++ [name])
      | [n] =>
          measurementsLoop rest
            (acc.1 + n, acc.2 ++ (List.range n).map (fun i => name ++ "_" ++ toString i))
      | _ => measurementsLoop rest acc

/-- The spaces computed by `__init__`. -/
structure InitSpaces where
  state_space_pixels : ImageObservationSpace
  state_space_measurements : VectorObservationSpace
  action_space : BoxActionSpace

/-- The space-construction part of `__init__`: reads
`self.env.observation_spec()['pixels'].shape` (raising `KeyError` if the
pixels wrapper did not install a `'pixels'` entry), builds the measurements
space from the loop above, and builds the `BoxActionSpace` from
`self.env.action_spec().shape[0]`, `.minimum` and `.maximum`. -/
def initSpaces (env : DMEnv) : Except PyError InitSpaces :=
  match specGet "pixels" env.observation_spec with
  | none => .error .keyError
  | some pixelsShape =>
      let m := measurementsLoop env.observation_spec (0, [])
      .ok
        { state_space_pixels := ⟨pixelsShape, 255⟩
          state_space_measurements := ⟨m.1, m.2⟩
          action_space :=
            ⟨env.action_spec.shape.headI, env.action_spec.minimum, env.action_spec.maximum⟩ }

/-! ### `_update_state` -/

/-- The measurements-accumulation loop of `_update_state`: starting from
`np.array([])`, for each sub-observation value (in dictionary order)
concatenate it directly when it is a 1-D ndarray and otherwise concatenate
`np.array([sub_observation])`; any shape mismatch inside `np.concatenate`
makes the whole computation raise (`none`). -/
def measurementsConcat (obs : List (String × NDArray)) : Option NDArray :=
  obs.foldl
    (fun acc e =>
      acc.bind fun m =>
        if e.2.shape.length = 1 then npConcatenate m e.2
        else npConcatenate m (npArrayOf e.2))
    (some npEmpty)

/-- `_update_state`: rebuilds `self.state` from `self.last_result`
(`self.state = {}` followed by the keyed assignments gives the dictionary in
insertion order), sets `self.reward` (0 when the result's reward is `None`)
and `self.done` (`last_result.last()`).  Returns the object state after the
call together with the exception when one is raised; assignments performed
before a raise are kept, matching Python's mutation order.  The attributes
`self.pixels` and `self.measurements` only mirror the two `self.state`
entries and are not modelled separately. -/
def updateState (st : EnvState) : EnvState × Option PyError :=
  match dictGet "pixels" st.last_result.observation with
  | none => ({ st with state := [] }, some .keyError)
  | some px =>
      match measurementsConcat st.last_result.observation with
      | none => ({ st with state := [("pixels", px)] }, some .valueError)
      | some m =>
          ({ st with
              state := [("pixels", px), ("measurements", m)]
              reward :=
                match st.last_result.reward with
                | some r => r
                | none => 0
              done := st.last_result.isLast }, none)

/-! ### `_take_action`, `_restart_environment_episode`, `get_rendered_image` -/

/-- Modelled from the spec: `BoxActionSpace.clip_action_to_space` is defined
in `rl_coach.spaces`, which is part of this repository but not among the
shown material.  The spec describes the action space as "a bounded continuous
action vector" whose bounds come from the simulator's action spec, so
clipping is modelled as clamping each action component into the
corresponding `[low, high]` interval. -/
def clip_action_to_space (b : BoxActionSpace) (action : NDArray) : NDArray :=
  ⟨action.shape,
    (action.data.zip (b.low.zip b.high)).map fun p => max p.2.1 (min p.2.2 p.1)⟩

/-- The action value that `_take_action` hands to `self.env.step`: the input
action clipped to the space when `type(self.action_space) ==
BoxActionSpace`, and the input action unchanged otherwise. -/
def actionPassedToStep (st : EnvState) (action : NDArray) : NDArray :=
  match st.action_space with
  | .box b => clip_action_to_space b action
  | .other => action

/-- `_take_action(action)`: clips the action when the action space is a
`BoxActionSpace`, then stores `self.env.step(action)` into
`self.last_result`.  When `env.step` raises, the exception propagates and no
attribute is assigned. -/
def takeAction (st : EnvState) (action : NDArray) : EnvState × Option PyError :=
  match st.env.step (actionPassedToStep st action) with
  | .ok r => ({ st with last_result := r }, none)
  | .error e => (st, some e)

/-- `_restart_environment_episode(force_environment_reset)`: stores
`self.env.reset()` into `self.last_result`; the argument is never read.
When `env.reset` raises, the exception propagates and no attribute is
assigned. -/
def restartEnvironmentEpisode (st : EnvState) (force_environment_reset : Bool) :
    EnvState × Option PyError :=
  match st.env.reset with
  | .ok r => ({ st with last_result := r }, none)
  | .error e => (st, some e)

/-- `get_rendered_image()`: returns `self.env.physics.render(camera_id=0)`. -/
def get_rendered_image (st : EnvState) : NDArray :=
  st.env.physics_render 0

/-! ### Concrete fixtures for evaluations

A small cartpole-like instance: one 1-D `position` sub-observation plus the
3-D `pixels` image installed by `pixels.Wrapper(..., pixels_only=False)`,
and a one-component bounded action. -/

/-- The observation spec of the concrete instance. -/
def exSpec : List (String × List Nat) :=
  [("position", [2]), ("pixels", [2, 2, 3])]

/-- A concrete 2×2 RGB image, as the `pixels` sub-observation. -/
def exPixels : NDArray :=
  ⟨[2, 2, 3], List.replicate 12 0⟩

/-- A concrete observation dictionary matching `exSpec`. -/
def exObs : List (String × NDArray) :=
  [("position", vec [1, 2]), ("pixels", exPixels)]

/-- The `BoxActionSpace` that `__init__` builds from the concrete action
spec below. -/
def exBox : BoxActionSpace :=
  ⟨1, [-1], [1]⟩

/-- A concrete wrapped simulator.  Its `step` echoes the received action back
inside the observation (under `"action_echo"`), so what the simulator was
handed is observable in `last_result`. -/
def exEnv : DMEnv where
  observation_spec := exSpec
  action_spec := { shape := [1], minimum := [-1], maximum := [1] }
  step := fun a => .ok ⟨[("action_echo", a), ("pixels", vec [7])], some 1, false⟩
  reset := .ok ⟨exObs, none, false⟩
  physics_render := fun _ => ⟨[2, 2, 3], List.replicate 12 3⟩

/-- A wrapper state over a given simulator and last result, with the spaces
`__init__` computes for `exEnv`. -/
def mkState (env : DMEnv) (lr : TimeStep) : EnvState where
  env := env
  action_space := .box ⟨env.action_spec.shape.headI, env.action_spec.minimum,
    env.action_spec.maximum⟩
  state_space_pixels := ⟨[2, 2, 3], 255⟩
  state_space_measurements := ⟨2, ["position_0", "position_1"]⟩
  last_result := lr
  state := []
  reward := 0
  done := false

/-- The concrete wrapper state most evaluations use. -/
def exSt : EnvState :=
  mkState exEnv ⟨exObs, some 1, false⟩

/-- A wrapped simulator whose `step` and `reset` both raise. -/
def exFailEnv : DMEnv where
  observation_spec := exSpec
  action_spec := { shape := [1], minimum := [-1], maximum := [1] }
  step := fun _ => .error (.simError "mujoco step failure")
  reset := .error (.simError "mujoco reset failure")
  physics_render := fun _ => vec [0]

/-- A wrapper state over the failing simulator. -/
def exFailSt : EnvState :=
  mkState exFailEnv ⟨exObs, some 1, false⟩

/-- The spaces `initSpaces` computes for `exEnv`. -/
def exInitRes : InitSpaces where
  state_space_pixels := ⟨[2, 2, 3], 255⟩
  state_space_measurements := ⟨2, ["position_0", "position_1"]⟩
  action_space := ⟨1, [-1], [1]⟩

/-! ## Claims -/

/-- Claim C1 (the code contradicts its own markdown, which says `self.state`
"follows the state space definition"): for `exSpec`, `__init__` declares a
measurements vector of size 2, but on a matching simulator result
`_update_state` raises `ValueError` — `np.concatenate` is handed the 1-D
accumulator together with the 4-D `np.array([pixels_image])` — so
`state['measurements']` is never assigned at all, let alone a vector of the
declared size. -/
theorem update_state_measurements_not_conformant :
    (measurementsLoop exSpec (0, [])).1 = 2 ∧
    (updateState exSt).2 = some PyError.valueError ∧
    dictGet "measurements" (updateState exSt).1.state = none :=
  ⟨rfl, rfl, rfl⟩

/-- Claim C2, as stated, is false: `_take_action` does not pass the action
unchanged to `env.step` — it clips it first.  At the concrete input
`[5]` with bounds `[-1, 1]`, the simulator receives `[1]`, as its echoed
observation shows. -/
theorem take_action_not_unchanged_counterexample :
    actionPassedToStep exSt (vec [5]) ≠ vec [5] ∧
    dictGet "action_echo" (takeAction exSt (vec [5])).1.last_result.observation =
      some (vec [1]) :=
  ⟨by decide, rfl⟩

/-- Claim C2, amended: `_take_action` hands `env.step` the action clipped
into the `BoxActionSpace` (the wrapper's action space is always one) and
stores the result; `_restart_environment_episode` only calls `env.reset` and
stores the result; `get_rendered_image` only returns
`env.physics.render(camera_id=0)`. -/
theorem wrapper_delegation (st : EnvState) (b : BoxActionSpace) (a : NDArray)
    (f : Bool) (hb : st.action_space = .box b) :
    takeAction st a =
      (match st.env.step (clip_action_to_space b a) with
        | .ok r => ({ st with last_result := r }, none)
        | .error e => (st, some e)) ∧
    restartEnvironmentEpisode st f =
      (match st.env.reset with
        | .ok r => ({ st with last_result := r }, none)
        | .error e => (st, some e)) ∧
    get_rendered_image st = st.env.physics_render 0 := by
  unfold takeAction restartEnvironmentEpisode get_rendered_image actionPassedToStep
  rw [hb]
  exact ⟨rfl, rfl, rfl⟩

/-- Witness for `wrapper_delegation` at the concrete instance. -/
theorem wrapper_delegation_witness :
    exSt.action_space = ActionSpaceT.box exBox ∧
    (takeAction exSt (vec [5]) =
        ({ exSt with
            last_result := ⟨[("action_echo", vec [1]), ("pixels", vec [7])], some 1, false⟩ },
          none) ∧
      restartEnvironmentEpisode exSt true =
        ({ exSt with last_result := ⟨exObs, none, false⟩ }, none) ∧
      get_rendered_image exSt = ⟨[2, 2, 3], List.replicate 12 3⟩) :=
  ⟨rfl, wrapper_delegation exSt exBox (vec [5]) true rfl⟩

/-- Claim C3: the wrapper has no error handling — an exception raised by
`env.step` inside `_take_action`, or by `env.reset` inside
`_restart_environment_episode`, propagates unchanged to the caller, and the
wrapper object's stored attributes (`last_result`, `state`, `reward`,
`done`, and all others) are exactly as before the failed call. -/
theorem exceptions_propagate (st : EnvState) (a : NDArray) (f : Bool)
    (e e' : PyError) :
    (st.env.step (actionPassedToStep st a) = .error e →
      takeAction st a = (st, some e)) ∧
    (st.env.reset = .error e' →
      restartEnvironmentEpisode st f = (st, some e')) := by
  constructor
  · intro h
    unfold takeAction
    rw [h]
  · intro h
    unfold restartEnvironmentEpisode
    rw [h]

/-- Witness for `exceptions_propagate` at the failing simulator. -/
theorem exceptions_propagate_witness :
    (exFailSt.env.step (actionPassedToStep exFailSt (vec [0])) =
        .error (.simError "mujoco step failure") ∧
      exFailSt.env.reset = .error (.simError "mujoco reset failure")) ∧
    takeAction exFailSt (vec [0]) = (exFailSt, some (.simError "mujoco step failure")) ∧
    restartEnvironmentEpisode exFailSt false =
      (exFailSt, some (.simError "mujoco reset failure")) :=
  ⟨⟨rfl, rfl⟩,
    (exceptions_propagate exFailSt (vec [0]) false (.simError "mujoco step failure")
      (.simError "mujoco reset failure")).1 rfl,
    (exceptions_propagate exFailSt (vec [0]) false (.simError "mujoco step failure")
      (.simError "mujoco reset failure")).2 rfl⟩

/-- Claim C4: the action space built by `__init__` is a `BoxActionSpace`
whose shape is `env.action_spec().shape[0]` and whose bounds are exactly the
action spec's minimum and maximum. -/
theorem init_action_space (env : DMEnv) (res : InitSpaces) (n : Nat)
    (rest : List Nat) (hinit : initSpaces env = .ok res)
    (hshape : env.action_spec.shape = n :: rest) :
    res.action_space =
      { shape := n, low := env.action_spec.minimum,
        high := env.action_spec.maximum } := by
  unfold initSpaces at hinit
  rcases hpx : specGet "pixels" env.observation_spec with _ | s
  · rw [hpx] at hinit
    cases hinit
  · rw [hpx] at hinit
    injection hinit with h
    subst h
    simp [hshape]

/-- Witness for `init_action_space` at the concrete instance. -/
theorem init_action_space_witness :
    (initSpaces exEnv = .ok exInitRes ∧ exEnv.action_spec.shape = 1 :: []) ∧
    exInitRes.action_space = { shape := 1, low := [-1], high := [1] } :=
  ⟨⟨rfl, rfl⟩, init_action_space exEnv exInitRes 1 [] rfl rfl⟩

/-- Claim C5: whenever `_update_state` completes (raising nothing), the
wrapper's reward is a numeric scalar — `last_result.reward` when present and
0 when the simulator reported `None` — and `self.done` equals the wrapped
simulator's episode-termination signal `last_result.last()`. -/
theorem update_state_reward_done (st st' : EnvState)
    (h : updateState st = (st', none)) :
    st'.reward =
      (match st.last_result.reward with
        | some r => r
        | none => 0) ∧
    st'.done = st.last_result.isLast := by
  unfold updateState at h
  split at h
  · cases h
  · split at h
    · cases h
    · rw [Prod.mk.injEq] at h
      obtain ⟨h1, -⟩ := h
      subst h1
      exact ⟨rfl, rfl⟩

/-- Witness for `update_state_reward_done`: a result whose reward is `None`
and whose episode is over yields reward 0 and `done = true`. -/
theorem update_state_reward_done_witness :
    updateState (mkState exEnv ⟨[("pixels", vec [5])], none, true⟩) =
      ((updateState (mkState exEnv ⟨[("pixels", vec [5])], none, true⟩)).1, none) ∧
    ((updateState (mkState exEnv ⟨[("pixels", vec [5])], none, true⟩)).1.reward = 0 ∧
      (updateState (mkState exEnv ⟨[("pixels", vec [5])], none, true⟩)).1.done = true) :=
  ⟨rfl,
    update_state_reward_done (mkState exEnv ⟨[("pixels", vec [5])], none, true⟩)
      (updateState (mkState exEnv ⟨[("pixels", vec [5])], none, true⟩)).1 rfl⟩

/-- The measurement names exactly as the spec sentence describes them: one
bare name per scalar (0-D) spec entry and one indexed name per component of
each 1-dimensional spec entry, in the spec's iteration order. -/
def describedNames : List (String × List Nat) → List String
  | [] => []
  | (name, shape) :: rest =>
      (match shape with
        | [] => [name]
        | [n] => (List.range n).map (fun i => name ++ "_" ++ toString i)
        | _ => []) ++ describedNames rest

/-- The `__init__` measurements loop accumulates exactly the described
names, and its size accumulator counts them. -/
theorem measurementsLoop_eq (spec : List (String × List Nat)) :
    ∀ acc : Nat × List String,
      measurementsLoop spec acc =
        (acc.1 + (describedNames spec).length, acc.2 ++ describedNames spec) := by
  induction spec with
  | nil =>
      intro acc
      simp [measurementsLoop, describedNames]
  | cons e rest ih =>
      intro acc
      obtain ⟨name, shape⟩ := e
      rcases shape with _ | ⟨n, _ | ⟨m, t⟩⟩
      · simp only [measurementsLoop, describedNames, ih, Prod.mk.injEq]
        constructor
        · simp only [List.length_append, List.length_cons, List.length_nil]
          omega
        · simp [List.append_assoc]
      · simp only [measurementsLoop, describedNames, ih, Prod.mk.injEq]
        constructor
        · simp only [List.length_append, List.length_map, List.length_range]
          omega
        · simp [List.append_assoc]
      · simp only [measurementsLoop, describedNames, ih]
        simp

/-- Claim C6: the declared state space comes entirely from the simulator's
observation spec — `state_space['pixels']` is an `ImageObservationSpace`
with the spec's pixels shape and `high = 255`, and
`state_space['measurements']` is a `VectorObservationSpace` whose
measurement names are exactly the described names (one per scalar entry, one
per component of each 1-D entry, in spec order) and whose size counts
them. -/
theorem init_state_space (env : DMEnv) (res : InitSpaces) (pshape : List Nat)
    (hpx : specGet "pixels" env.observation_spec = some pshape)
    (hinit : initSpaces env = .ok res) :
    res.state_space_pixels = { shape := pshape, high := 255 } ∧
    res.state_space_measurements.measurements_names =
      describedNames env.observation_spec ∧
    res.state_space_measurements.shape =
      (describedNames env.observation_spec).length := by
  unfold initSpaces at hinit
  rw [hpx] at hinit
  injection hinit with h
  subst h
  refine ⟨rfl, ?_, ?_⟩ <;> simp [measurementsLoop_eq]

/-- Witness for `init_state_space` at the concrete instance. -/
theorem init_state_space_witness :
    (specGet "pixels" exEnv.observation_spec = some [2, 2, 3] ∧
      initSpaces exEnv = .ok exInitRes) ∧
    (exInitRes.state_space_pixels = { shape := [2, 2, 3], high := 255 } ∧
      exInitRes.state_space_measurements.measurements_names =
        describedNames exEnv.observation_spec ∧
      exInitRes.state_space_measurements.shape =
        (describedNames exEnv.observation_spec).length) :=
  ⟨⟨rfl, rfl⟩, init_state_space exEnv exInitRes [2, 2, 3] rfl rfl⟩

/-- Claim C7: the wrapper forwards observations untouched — whatever
ndarray sits under `'pixels'` in `last_result.observation` is stored
verbatim under `'pixels'` in `self.state` by `_update_state`, and
`get_rendered_image` returns exactly `env.physics.render(camera_id=0)`. -/
theorem observation_passthrough (st : EnvState) (px : NDArray)
    (hpx : dictGet "pixels" st.last_result.observation = some px) :
    dictGet "pixels" (updateState st).1.state = some px ∧
    get_rendered_image st = st.env.physics_render 0 := by
  refine ⟨?_, rfl⟩
  unfold updateState
  rw [hpx]
  rcases hm : measurementsConcat st.last_result.observation with _ | m <;>
    simp [dictGet]

/-- Witness for `observation_passthrough`: the concrete image comes through
bit-for-bit. -/
theorem observation_passthrough_witness :
    dictGet "pixels" exSt.last_result.observation = some exPixels ∧
    (dictGet "pixels" (updateState exSt).1.state = some exPixels ∧
      get_rendered_image exSt = exSt.env.physics_render 0) :=
  ⟨rfl, observation_passthrough exSt exPixels rfl⟩

/-- Each component of a clamp-mapped zip stays within the corresponding
bound pair, provided that pair is ordered. -/
theorem clip_component_bounds (xs lo hi : List Int) (i : Nat)
    (hlh : lo.getD i 0 ≤ hi.getD i 0)
    (hlen : i < ((xs.zip (lo.zip hi)).map
      (fun p => max p.2.1 (min p.2.2 p.1))).length) :
    lo.getD i 0 ≤ ((xs.zip (lo.zip hi)).map
      (fun p => max p.2.1 (min p.2.2 p.1))).getD i 0 ∧
    ((xs.zip (lo.zip hi)).map
      (fun p => max p.2.1 (min p.2.2 p.1))).getD i 0 ≤ hi.getD i 0 := by
  induction xs generalizing lo hi i with
  | nil => simp at hlen
  | cons x xs ih =>
      rcases lo with _ | ⟨l, lo⟩
      · simp at hlen
      rcases hi with _ | ⟨h, hi⟩
      · simp at hlen
      rcases i with _ | i
      · simp only [List.zip_cons_cons, List.map_cons, List.getD_cons_zero] at hlh ⊢
        exact ⟨le_max_left _ _, max_le hlh (min_le_left _ _)⟩
      · simp only [List.zip_cons_cons, List.map_cons, List.getD_cons_succ,
          List.length_cons, Nat.succ_lt_succ_iff] at hlh hlen ⊢
        exact ih lo hi i hlh hlen

/-- Claim C8: when `self.action_space` is a `BoxActionSpace`, every
component of the action that `_take_action` hands to `env.step` lies within
the space's `[low, high]` bounds at that component (assuming the bound pair
is ordered), so the simulator never receives an out-of-bounds component. -/
theorem take_action_clips_to_bounds (st : EnvState) (b : BoxActionSpace)
    (a : NDArray) (i : Nat) (hb : st.action_space = .box b)
    (hlh : b.low.getD i 0 ≤ b.high.getD i 0)
    (hlen : i < (actionPassedToStep st a).data.length) :
    b.low.getD i 0 ≤ (actionPassedToStep st a).data.getD i 0 ∧
    (actionPassedToStep st a).data.getD i 0 ≤ b.high.getD i 0 := by
  unfold actionPassedToStep at hlen ⊢
  rw [hb] at hlen ⊢
  exact clip_component_bounds a.data b.low b.high i hlh hlen

/-- Witness for `take_action_clips_to_bounds`: component 0 of the clipped
concrete action lies within `[-1, 1]`. -/
theorem take_action_clips_to_bounds_witness :
    (exSt.action_space = ActionSpaceT.box exBox ∧
      exBox.low.getD 0 0 ≤ exBox.high.getD 0 0 ∧
      0 < (actionPassedToStep exSt (vec [5])).data.length) ∧
    (exBox.low.getD 0 0 ≤ (actionPassedToStep exSt (vec [5])).data.getD 0 0 ∧
      (actionPassedToStep exSt (vec [5])).data.getD 0 0 ≤ exBox.high.getD 0 0) :=
  ⟨⟨rfl, by decide, by decide⟩,
    take_action_clips_to_bounds exSt exBox (vec [5]) 0 rfl (by decide) (by decide)⟩

/-- Claim C9: `_update_state` maps a missing simulator reward
(`last_result.reward is None`, as on the first result of an episode) to 0,
and stores any present reward unchanged. -/
theorem update_state_reward_default (st st' : EnvState)
    (h : updateState st = (st', none)) :
    (st.last_result.reward = none → st'.reward = 0) ∧
    (∀ r, st.last_result.reward = some r → st'.reward = r) := by
  unfold updateState at h
  split at h
  · cases h
  · split at h
    · cases h
    · rw [Prod.mk.injEq] at h
      obtain ⟨h1, -⟩ := h
      subst h1
      constructor
      · intro hr
        simp [hr]
      · intro r hr
        simp [hr]

/-- A concrete wrapper state whose last result carries reward 7. -/
def exSomeRewardSt : EnvState :=
  mkState exEnv ⟨[("pixels", vec [5])], some 7, false⟩

/-- Witness for `update_state_reward_default`: a present reward of 7 is
stored unchanged. -/
theorem update_state_reward_default_witness :
    updateState exSomeRewardSt = ((updateState exSomeRewardSt).1, none) ∧
    exSomeRewardSt.last_result.reward = some 7 ∧
    (updateState exSomeRewardSt).1.reward = 7 :=
  ⟨rfl, rfl,
    (update_state_reward_default exSomeRewardSt
      (updateState exSomeRewardSt).1 rfl).2 7 rfl⟩

/-- Claim C10: `_restart_environment_episode` never reads its
`force_environment_reset` argument — with either argument value it performs
the same unconditional `env.reset` call, stores the result in
`self.last_result`, and produces identical resulting states. -/
theorem restart_ignores_force (st : EnvState) (f g : Bool) :
    restartEnvironmentEpisode st f = restartEnvironmentEpisode st g ∧
    (∀ r, st.env.reset = .ok r →
      restartEnvironmentEpisode st f = ({ st with last_result := r }, none)) := by
  constructor
  · rfl
  · intro r hr
    unfold restartEnvironmentEpisode
    rw [hr]

/-- Witness for `restart_ignores_force` at the concrete instance. -/
theorem restart_ignores_force_witness :
    exSt.env.reset = Except.ok (⟨exObs, none, false⟩ : TimeStep) ∧
    restartEnvironmentEpisode exSt true = restartEnvironmentEpisode exSt false ∧
    restartEnvironmentEpisode exSt true =
      ({ exSt with last_result := ⟨exObs, none, false⟩ }, none) :=
  ⟨rfl, (restart_ignores_force exSt true false).1,
    (restart_ignores_force exSt true false).2 ⟨exObs, none, false⟩ rfl⟩

end ControlSuite
